import Mathlib

/-
Verification of the calorie-burn dashboard's core numeric logic
(src/app.py): maximum-heart-rate estimation, the heart-rate
intensity-zone classifier, the workout evaluation arithmetic
(calories per minute, BMI, recommendation tier) and the gender
encoding passed to the external predictor.

Numbers are modelled as exact rationals. Python raises
ZeroDivisionError when an int or Python float is divided by zero;
those divisions are embedded as Option-valued, with none for the
raised exception. The model prediction is a numpy float64 scalar,
whose division by zero silently yields inf or nan instead of
raising; that is modelled by the NpFloat type below.
-/

namespace CalorieBurn

/-- Embeds calculate_max_heart_rate (src/app.py lines 164-166):
returns 220 - age with no bounds check. -/
def calculate_max_heart_rate (age : ℤ) : ℤ :=
  220 - age

/-- The record returned by get_intensity_zone: a static zone
descriptor with name, level label, color token, description and
percentage-range string, exactly the dict fields of the source. -/
structure IntensityZone where
  zone : String
  level : String
  color : String
  description : String
  range : String
deriving DecidableEq, Repr

/-- The Rest dict of get_intensity_zone (src/app.py lines 173-179). -/
def restZone : IntensityZone :=
  ⟨"Rest", "Very Light", "#94A3B8", "Recovery and rest", "< 50%"⟩

/-- The Zone 1 dict of get_intensity_zone (src/app.py lines 181-187). -/
def zone1 : IntensityZone :=
  ⟨"Zone 1", "Light", "#10B981", "Warm-up and recovery", "50-60%"⟩

/-- The Zone 2 dict of get_intensity_zone (src/app.py lines 189-195). -/
def zone2 : IntensityZone :=
  ⟨"Zone 2", "Moderate", "#3B82F6", "Fat burning and endurance", "60-70%"⟩

/-- The Zone 3 dict of get_intensity_zone (src/app.py lines 197-203). -/
def zone3 : IntensityZone :=
  ⟨"Zone 3", "Vigorous", "#F59E0B", "Aerobic capacity building", "70-80%"⟩

/-- The Zone 4 dict of get_intensity_zone (src/app.py lines 205-211). -/
def zone4 : IntensityZone :=
  ⟨"Zone 4", "Hard", "#EF4444", "Anaerobic threshold", "80-90%"⟩

/-- The Zone 5 dict of get_intensity_zone (src/app.py lines 213-219). -/
def zone5 : IntensityZone :=
  ⟨"Zone 5", "Maximum", "#DC2626", "Maximum effort", "90-100%"⟩

/-- The six zone records of the source, in ladder order. -/
def zones : List IntensityZone :=
  [restZone, zone1, zone2, zone3, zone4, zone5]

/-- The threshold ladder of get_intensity_zone applied to an
already-computed percentage: the if/elif chain of src/app.py
lines 172-219, strict less-than comparisons in ascending order. -/
def classifyPercentage (p : ℚ) : IntensityZone :=
  if p < 50 then restZone
  else if p < 60 then zone1
  else if p < 70 then zone2
  else if p < 80 then zone3
  else if p < 90 then zone4
  else zone5

/-- Embeds get_intensity_zone (src/app.py lines 168-219): computes
hr_percentage = heart_rate / max_hr * 100 and walks the ladder.
Both arguments are Python ints in the source, so max_hr = 0 raises
ZeroDivisionError, embedded as none. -/
def get_intensity_zone (heart_rate max_hr : ℚ) : Option IntensityZone :=
  if max_hr = 0 then none
  else
    let hr_percentage := heart_rate / max_hr * 100
    if hr_percentage < 50 then some restZone
    else if hr_percentage < 60 then some zone1
    else if hr_percentage < 70 then some zone2
    else if hr_percentage < 80 then some zone3
    else if hr_percentage < 90 then some zone4
    else some zone5

/-- A numpy float64 scalar, as produced by model.predict: a finite
rational value or one of the IEEE special values that numpy division
by zero yields silently (with only a RuntimeWarning). -/
inductive NpFloat where
  | val : ℚ → NpFloat
  | posInf : NpFloat
  | negInf : NpFloat
  | nan : NpFloat
deriving DecidableEq, Repr

/-- numpy float64 division: a zero divisor yields nan for 0/0 and
signed infinity otherwise; no exception is raised. -/
def npdiv (a b : ℚ) : NpFloat :=
  if b = 0 then
    if a = 0 then NpFloat.nan
    else if 0 < a then NpFloat.posInf
    else NpFloat.negInf
  else NpFloat.val (a / b)

/-- The greater-than comparison of a numpy float against a finite
threshold, as Python evaluates cal_per_min > 10: inf compares
greater, -inf and nan compare not-greater. -/
def npGt (a : NpFloat) (q : ℚ) : Bool :=
  match a with
  | NpFloat.val x => decide (q < x)
  | NpFloat.posInf => true
  | NpFloat.negInf => false
  | NpFloat.nan => false

/-- Embeds cal_per_min = prediction / duration (src/app.py line 378).
prediction is a numpy float64, so the division never raises: a zero
duration silently produces inf or nan. -/
def cal_per_min (prediction duration : ℚ) : NpFloat :=
  npdiv prediction duration

/-- Embeds bmi = weight / ((height/100) ** 2) (src/app.py line 410).
weight and height are Python ints, so a zero squared divisor raises
ZeroDivisionError, embedded as none; no validation precedes the
division. -/
def bmi_calc (weight height : ℚ) : Option ℚ :=
  if (height / 100) ^ 2 = 0 then none
  else some (weight / (height / 100) ^ 2)

/-- Embeds bmi_status (src/app.py line 411): Normal if
18.5 <= bmi <= 24.9, else Underweight if bmi < 18.5, else
Overweight. -/
def bmi_status (b : ℚ) : String :=
  if 18.5 ≤ b ∧ b ≤ 24.9 then "Normal"
  else if b < 18.5 then "Underweight"
  else "Overweight"

/-- Embeds the recommendation tier chain (src/app.py lines 452-466):
rec_title is Excellent when cal_per_min > 10, Good when
cal_per_min > 7, otherwise Improvement. -/
def rec_title (c : NpFloat) : String :=
  if npGt c 10 then "Excellent"
  else if npGt c 7 then "Good"
  else "Improvement"

/-- Gender as offered by the selectbox (src/app.py lines 284-288):
only Male and Female exist. -/
inductive Gender where
  | Male : Gender
  | Female : Gender
deriving DecidableEq, Repr

/-- Embeds gender_encoded = 1 if gender == Male else 0
(src/app.py line 365): the value placed in the Gender column of
input_data handed to model.predict. -/
def gender_encoded (g : Gender) : ℤ :=
  if g = Gender.Male then 1 else 0

/-- The derived values the analysis block computes after a
prediction (src/app.py lines 378-466), bundled as one record:
burn rate, BMI with its status, recommendation tier and intensity
zone. -/
structure EvaluationReport where
  calPerMin : NpFloat
  bmiVal : Option ℚ
  bmiStatus : Option String
  recTitle : String
  zone : Option IntensityZone
deriving DecidableEq, Repr

/-- The evaluation pipeline of the analysis block (src/app.py lines
378-466) as one pure function of its numeric inputs. -/
def evaluate (prediction duration heart_rate max_hr height weight : ℚ) :
    EvaluationReport :=
  ⟨cal_per_min prediction duration,
   bmi_calc weight height,
   (bmi_calc weight height).map bmi_status,
   rec_title (cal_per_min prediction duration),
   get_intensity_zone heart_rate max_hr⟩

/-- Membership of a percentage in the half-open band a zone record
advertises: Rest below 50, Zone k on [50+10(k-1), 50+10k) for
k = 1..4, Zone 5 from 90 up. -/
def memZone (z : IntensityZone) (p : ℚ) : Prop :=
  (z = restZone ∧ p < 50)
  ∨ (z = zone1 ∧ 50 ≤ p ∧ p < 60)
  ∨ (z = zone2 ∧ 60 ≤ p ∧ p < 70)
  ∨ (z = zone3 ∧ 70 ≤ p ∧ p < 80)
  ∨ (z = zone4 ∧ 80 ≤ p ∧ p < 90)
  ∨ (z = zone5 ∧ 90 ≤ p)

/-- Every percentage lands on one of the six fixed zone records. -/
lemma classifyPercentage_mem_zones (p : ℚ) : classifyPercentage p ∈ zones := by
  unfold classifyPercentage zones
  split_ifs <;> simp

/-- C1: get_intensity_zone computes percentage = heartRate /
maxHeartRate * 100 and selects by the strict-less-than ladder in
ascending order, first match wins; percentage exactly 60 yields
Zone 2, not Zone 1. -/
theorem zone_ladder_strict_lt (hr m p : ℚ) (hm : m ≠ 0) :
    get_intensity_zone hr m = some (classifyPercentage (hr / m * 100))
    ∧ (p < 50 → classifyPercentage p = restZone)
    ∧ (50 ≤ p → p < 60 → classifyPercentage p = zone1)
    ∧ (60 ≤ p → p < 70 → classifyPercentage p = zone2)
    ∧ (70 ≤ p → p < 80 → classifyPercentage p = zone3)
    ∧ (80 ≤ p → p < 90 → classifyPercentage p = zone4)
    ∧ (90 ≤ p → classifyPercentage p = zone5)
    ∧ classifyPercentage 60 = zone2 := by
  refine ⟨?_, ?_, ?_, ?_, ?_, ?_, ?_, ?_⟩
  · simp only [get_intensity_zone, classifyPercentage, if_neg hm]
    split_ifs <;> rfl
  all_goals intros
  all_goals unfold classifyPercentage
  all_goals split_ifs <;> first | rfl | linarith

/-- C1 witness: at heartRate 120 and maxHeartRate 200 the percentage
is exactly 60 and the classifier returns Zone 2. -/
theorem zone_ladder_strict_lt_witness :
    get_intensity_zone 120 200 = some (classifyPercentage (120 / 200 * 100))
    ∧ classifyPercentage 60 = zone2 := by
  have h := zone_ladder_strict_lt 120 200 60 (by norm_num)
  exact ⟨h.1, h.2.2.2.2.2.2.2⟩

/-- C2: for positive maxHeartRate the classifier returns one of the
six fixed zones, and the six bands partition the percentage axis:
every percentage at or above 0 belongs to exactly one zone. -/
theorem zones_partition (hr m p : ℚ) (hm : 0 < m) (_hp : 0 ≤ p) :
    (∃ z, get_intensity_zone hr m = some z ∧ z ∈ zones)
    ∧ memZone (classifyPercentage p) p
    ∧ (∀ z, memZone z p → z = classifyPercentage p) := by
  refine ⟨⟨classifyPercentage (hr / m * 100), ?_, classifyPercentage_mem_zones _⟩, ?_, ?_⟩
  · simp only [get_intensity_zone, classifyPercentage, if_neg (ne_of_gt hm)]
    split_ifs <;> rfl
  · unfold memZone classifyPercentage
    split_ifs with h1 h2 h3 h4 h5
    · exact Or.inl ⟨rfl, h1⟩
    · exact Or.inr (Or.inl ⟨rfl, by linarith, h2⟩)
    · exact Or.inr (Or.inr (Or.inl ⟨rfl, by linarith, h3⟩))
    · exact Or.inr (Or.inr (Or.inr (Or.inl ⟨rfl, by linarith, h4⟩)))
    · exact Or.inr (Or.inr (Or.inr (Or.inr (Or.inl ⟨rfl, by linarith, h5⟩))))
    · exact Or.inr (Or.inr (Or.inr (Or.inr (Or.inr ⟨rfl, by linarith⟩))))
  · intro z hz
    unfold classifyPercentage
    rcases hz with ⟨rfl, h⟩ | ⟨rfl, h, h'⟩ | ⟨rfl, h, h'⟩ | ⟨rfl, h, h'⟩ | ⟨rfl, h, h'⟩ | ⟨rfl, h⟩ <;>
      split_ifs <;> first | rfl | linarith

/-- C2 witness: at heartRate 120, maxHeartRate 200 and percentage 60
the classifier returns a member of the zone table, 60 sits in the
band of its classified zone, and that zone is unique. -/
theorem zones_partition_witness :
    (∃ z, get_intensity_zone 120 200 = some z ∧ z ∈ zones)
    ∧ memZone (classifyPercentage 60) 60
    ∧ (∀ z, memZone z 60 → z = classifyPercentage 60) :=
  zones_partition 120 200 60 (by norm_num) (by norm_num)

/-- C3: the source performs no InvalidInput validation before its
divisions. cal_per_min with zero duration silently yields nan or
inf (numpy float division), with negative duration it returns a
finite negative rate; get_intensity_zone and the BMI computation
reach their divisions and raise ZeroDivisionError (none) on a zero
divisor; a negative height is not rejected either. -/
theorem no_invalid_input_guard :
    cal_per_min 0 0 = NpFloat.nan
    ∧ cal_per_min 300 0 = NpFloat.posInf
    ∧ cal_per_min 300 (-30) = NpFloat.val (-10)
    ∧ get_intensity_zone 120 0 = none
    ∧ bmi_calc 70 0 = none
    ∧ bmi_calc 70 (-170) = some (7000 / 289) := by
  refine ⟨rfl, rfl, ?_, rfl, ?_, ?_⟩
  · unfold cal_per_min npdiv
    norm_num
  · unfold bmi_calc
    norm_num
  · unfold bmi_calc
    norm_num

/-- C4: the recommendation tier uses strict greater-than comparisons
evaluated high to low: Excellent above 10, Good above 7 up to 10,
Improvement at or below 7; prediction 300 over duration 30 gives
exactly 10 calories per minute and tier Good. -/
theorem recommendation_tiers (c : ℚ) :
    (10 < c → rec_title (NpFloat.val c) = "Excellent")
    ∧ (7 < c → c ≤ 10 → rec_title (NpFloat.val c) = "Good")
    ∧ (c ≤ 7 → rec_title (NpFloat.val c) = "Improvement")
    ∧ cal_per_min 300 30 = NpFloat.val 10
    ∧ rec_title (cal_per_min 300 30) = "Good" := by
  refine ⟨?_, ?_, ?_, ?_, ?_⟩
  · intro h
    simp [rec_title, npGt, h]
  · intro h h'
    simp only [rec_title, npGt]
    rw [if_neg (by simpa using not_lt.mpr h'), if_pos (by simpa using h)]
  · intro h
    simp only [rec_title, npGt]
    rw [if_neg (by simpa using not_lt.mpr (le_trans h (by norm_num))),
      if_neg (by simpa using not_lt.mpr h)]
  · unfold cal_per_min npdiv
    norm_num
  · unfold cal_per_min npdiv rec_title npGt
    norm_num

/-- C4 witness: the tier bounds discharged at the concrete rates 12,
10 and 5, together with the 300-over-30 boundary case. -/
theorem recommendation_tiers_witness :
    rec_title (NpFloat.val 12) = "Excellent"
    ∧ rec_title (NpFloat.val 10) = "Good"
    ∧ rec_title (NpFloat.val 5) = "Improvement"
    ∧ rec_title (cal_per_min 300 30) = "Good" :=
  ⟨(recommendation_tiers 12).1 (by norm_num),
   (recommendation_tiers 10).2.1 (by norm_num) (by norm_num),
   (recommendation_tiers 5).2.2.1 (by norm_num),
   (recommendation_tiers 0).2.2.2.2⟩

/-- C5: bmi is weight divided by the square of height in meters,
classified Underweight below 18.5, Normal from 18.5 to 24.9
inclusive on both ends, Overweight above; height 170 and weight 70
give bmi 7000/289, between 24.22 and 24.23, classified Normal. -/
theorem bmi_classification (b : ℚ) :
    (∀ w h : ℚ, h ≠ 0 → bmi_calc w h = some (w / (h / 100) ^ 2))
    ∧ (b < 18.5 → bmi_status b = "Underweight")
    ∧ (18.5 ≤ b → b ≤ 24.9 → bmi_status b = "Normal")
    ∧ (24.9 < b → bmi_status b = "Overweight")
    ∧ bmi_status 18.5 = "Normal"
    ∧ bmi_status 24.9 = "Normal"
    ∧ bmi_calc 70 170 = some (7000 / 289)
    ∧ (24.22 < (7000 : ℚ) / 289 ∧ (7000 : ℚ) / 289 < 24.23)
    ∧ bmi_status (7000 / 289) = "Normal" := by
  refine ⟨?_, ?_, ?_, ?_, ?_, ?_, ?_, ⟨by norm_num, by norm_num⟩, ?_⟩
  · intro w h hh
    unfold bmi_calc
    rw [if_neg (by positivity)]
  · intro h
    unfold bmi_status
    rw [if_neg (by rintro ⟨h1, h2⟩; linarith), if_pos h]
  · intro h h'
    unfold bmi_status
    rw [if_pos ⟨h, h'⟩]
  · intro h
    unfold bmi_status
    rw [if_neg (by rintro ⟨h1, h2⟩; linarith), if_neg (by linarith)]
  · unfold bmi_status
    norm_num
  · unfold bmi_status
    norm_num
  · unfold bmi_calc
    norm_num
  · unfold bmi_status
    norm_num

/-- C5 witness: the three brackets discharged at 17, the computed
7000/289 and 30, plus both inclusive boundaries. -/
theorem bmi_classification_witness :
    bmi_calc 70 170 = some (7000 / 289)
    ∧ bmi_status 17 = "Underweight"
    ∧ bmi_status (7000 / 289) = "Normal"
    ∧ bmi_status 30 = "Overweight"
    ∧ bmi_status 18.5 = "Normal"
    ∧ bmi_status 24.9 = "Normal" :=
  ⟨(bmi_classification 0).2.2.2.2.2.2.1,
   (bmi_classification 17).2.1 (by norm_num),
   (bmi_classification 0).2.2.2.2.2.2.2.2,
   (bmi_classification 30).2.2.2.1 (by norm_num),
   (bmi_classification 0).2.2.2.2.1,
   (bmi_classification 0).2.2.2.2.2.1⟩

/-- C6: calculate_max_heart_rate returns 220 minus age for every
integer age; at age 25 it returns 195. -/
theorem max_heart_rate_formula (age : ℤ) :
    calculate_max_heart_rate age = 220 - age
    ∧ calculate_max_heart_rate 25 = 195 :=
  ⟨rfl, rfl⟩

/-- C7: the source performs no bounds check on age. At age 0 it
returns 220 instead of failing, and at age 250 it returns the
degenerate value -30. -/
theorem max_heart_rate_unguarded :
    calculate_max_heart_rate 0 = 220
    ∧ calculate_max_heart_rate 250 = -30 := by
  constructor <;> rfl

/-- C8: the classifier and the evaluation pipeline are pure
functions of their arguments: two calls on identical inputs return
identical outputs. -/
theorem pure_deterministic
    (p d hr m h w p2 d2 hr2 m2 h2 w2 : ℚ)
    (heq : (p, d, hr, m, h, w) = (p2, d2, hr2, m2, h2, w2)) :
    evaluate p d hr m h w = evaluate p2 d2 hr2 m2 h2 w2
    ∧ get_intensity_zone hr m = get_intensity_zone hr2 m2 := by
  simp only [Prod.mk.injEq] at heq
  obtain ⟨rfl, rfl, rfl, rfl, rfl, rfl⟩ := heq
  exact ⟨rfl, rfl⟩

/-- C8 witness: two evaluations of the same concrete workout agree. -/
theorem pure_deterministic_witness :
    evaluate 300 30 140 195 170 70 = evaluate 300 30 140 195 170 70
    ∧ get_intensity_zone 140 195 = get_intensity_zone 140 195 :=
  pure_deterministic 300 30 140 195 170 70 300 30 140 195 170 70 rfl

/-- C9: whenever the computed percentage is below 50, including
every negative percentage from a negative heart rate or a negative
maximum heart rate, the classifier neither fails nor leaves the
table: it returns the Rest record. -/
theorem negative_percentage_rest (hr m : ℚ) (hm : m ≠ 0)
    (hlt : hr / m * 100 < 50) :
    get_intensity_zone hr m = some restZone := by
  simp only [get_intensity_zone, if_neg hm]
  rw [if_pos hlt]

/-- C9 witness: a negative maximum heart rate, as arises from an age
above 220, gives a negative percentage and lands in Rest. -/
theorem negative_percentage_rest_witness :
    get_intensity_zone 100 (-195) = some restZone :=
  negative_percentage_rest 100 (-195) (by norm_num) (by norm_num)

/-- C10: the Gender column of input_data is exactly 1 for Male and
exactly 0 for Female, and no other value can reach the predictor. -/
theorem gender_encoding :
    gender_encoded Gender.Male = 1
    ∧ gender_encoded Gender.Female = 0
    ∧ ∀ g : Gender, gender_encoded g = 0 ∨ gender_encoded g = 1 := by
  refine ⟨rfl, rfl, ?_⟩
  intro g
  cases g
  · exact Or.inr rfl
  · exact Or.inl rfl

end CalorieBurn
